import Mathlib

/-!
Verification of the FITRON rep-analysis core against its specification.

The definitions below are a shallow embedding of the Python sources:
  * `backend/app/services/pose_estimation.py` (geometry kernel, per-sequence
    rep analysis, form scoring),
  * `backend/app/core/rep_analyzer.py` (workout-session insights, form trend),
  * `backend/app/api/auto_regulation.py` (risk assessment, form-trend route).

Python floats are modelled by `ℚ` where the code only performs field
arithmetic, and by `ℝ` where it calls `sqrt`/`arccos`.  A float `NaN`
outcome is modelled as `Option.none`.  A raised exception surfaced to the
caller is modelled with `Except`.
-/

namespace Fitron

/-! ## Data model: pose_estimation.py -/

/-- A landmark position `(x, y, z)`; the source stores normalized floats. -/
abbrev Point3 := ℝ × ℝ × ℝ

/-- Embedding of the `PoseData` dataclass (pose_estimation.py, lines 41-48).
`bounding_box` is carried as four integers; `landmarks` maps MediaPipe
landmark ids to coordinates; `angles` maps joint names to angle values,
where `none` models a float NaN. -/
structure PoseData where
  landmarks : List (ℕ × Point3)
  angles : List (String × Option ℝ)
  confidence : ℚ
  bounding_box : ℤ × ℤ × ℤ × ℤ
  pose_type : String

/-- Embedding of the `RepAnalysis` dataclass (pose_estimation.py, lines
50-60).  The `feedback` field of the source is a presentation string
interpolating `form_score` to two decimals; it carries no further data and
is not modelled. -/
structure RepAnalysis where
  rep_count : ℕ
  form_score : ℚ
  rep_quality : String
  is_ego_lifting : Bool
  velocity : ℚ
  range_of_motion : ℚ
  suggestions : List String
deriving DecidableEq

/-- The quality-label threshold chain of `_analyze_generic_pose`
(pose_estimation.py, lines 343-351). -/
def rep_quality_label (s : ℚ) : String :=
  if s > 4/5 then "excellent"
  else if s > 3/5 then "good"
  else if s > 2/5 then "fair"
  else "poor"

/-- `sum(pose.confidence for pose in pose_sequence) / len(pose_sequence)`
(pose_estimation.py, line 335). -/
def avg_confidence (ps : List PoseData) : ℚ :=
  (ps.map PoseData.confidence).sum / (ps.length : ℚ)

/-- Embedding of `_analyze_generic_pose` (pose_estimation.py, lines
320-365): the empty-input early return, average confidence, rep count
`len(pose_sequence) // 10`, `form_score = avg_confidence`, the quality
label chain, the constant `is_ego_lifting = False`, and the constant
`velocity = 0.0`, `range_of_motion = 0.0` fields. -/
def analyze_generic_pose (ps : List PoseData) : RepAnalysis :=
  if ps.isEmpty then
    { rep_count := 0
      form_score := 0
      rep_quality := "unknown"
      is_ego_lifting := false
      velocity := 0
      range_of_motion := 0
      suggestions := ["Ensure proper camera positioning"] }
  else
    let form_score := avg_confidence ps
    { rep_count := ps.length / 10
      form_score := form_score
      rep_quality := rep_quality_label form_score
      is_ego_lifting := false
      velocity := 0
      range_of_motion := 0
      suggestions := ["Keep practicing for better form"] }

/-- A frame of the synthetic one-cycle trajectory: full landmark detection
(confidence 1) and a single primary-joint angle. -/
def cycleFrame (theta : ℚ) : PoseData :=
  { landmarks := []
    angles := [("left_knee", some (theta : ℝ))]
    confidence := 1
    bounding_box := (0, 0, 0, 0)
    pose_type := "squat" }

/-- A 25-frame knee-angle trajectory performing exactly one full
eccentric → bottom → concentric → lockout cycle (170° down to 90° and back
up to 170°), every frame detected. -/
def oneCycleSeq : List PoseData :=
  ([170, 163, 156, 149, 142, 135, 128, 121, 114, 107, 100, 90,
    97, 104, 111, 118, 125, 132, 139, 146, 153, 160, 165, 168, 170]
    : List ℚ).map cycleFrame

/-- A frame with given confidence; landmark/angle payloads fixed, so two
frames built from different confidences are kinematically identical. -/
def confFrame (c : ℚ) : PoseData :=
  { landmarks := []
    angles := [("left_knee", some (120 : ℝ))]
    confidence := c
    bounding_box := (0, 0, 0, 0)
    pose_type := "squat" }

/-- Ten frames at confidence 1/5, kinematically identical to `c4SeqHigh`. -/
def c4SeqLow : List PoseData := List.replicate 10 (confFrame (1/5))

/-- Ten frames at confidence 4/5, kinematically identical to `c4SeqLow`. -/
def c4SeqHigh : List PoseData := List.replicate 10 (confFrame (4/5))

/-- A small two-frame sequence used as concrete demo input. -/
def demoSeq : List PoseData := [confFrame (1/2), confFrame (3/4)]

/-- `avg_confidence` factored through the list of confidences alone. -/
theorem avg_confidence_factor (ps : List PoseData) :
    avg_confidence ps =
      (ps.map PoseData.confidence).sum / ((ps.map PoseData.confidence).length : ℚ) := by
  rw [avg_confidence, List.length_map]

/-- Elementwise bound: a list of rationals each at most 1 sums to at most
its length. -/
theorem list_sum_le_length (l : List ℚ) (h : ∀ x ∈ l, x ≤ 1) :
    l.sum ≤ (l.length : ℚ) := by
  induction l with
  | nil => simp
  | cons a t ih =>
    have ha := h a (by simp)
    have ht := ih (fun x hx => h x (by simp [hx]))
    simp only [List.sum_cons, List.length_cons]
    push_cast
    linarith

/-- Claim C2: the sequence analysis performs no phase segmentation: its rep
count is `⌊detected frames / 10⌋` regardless of the angle trajectory, so
the 25-frame single-cycle trajectory `oneCycleSeq` is reported as 2 reps,
not 1; no per-rep start/end timestamps exist in the output. -/
theorem c2_rep_count_is_frame_count_div_ten :
    (analyze_generic_pose oneCycleSeq).rep_count = 2 ∧
    ∀ ps : List PoseData, (analyze_generic_pose ps).rep_count = ps.length / 10 := by
  constructor
  · rfl
  · intro ps
    rcases ps with _ | ⟨a, t⟩ <;> simp [analyze_generic_pose]

/-- Claim C3: the analysis never flags ego-lifting: `is_ego_lifting` is the
constant `False` of pose_estimation.py line 354, whatever the input — in
particular also for a rep whose load jumped 50% with degraded velocity
control, contrary to the claim. -/
theorem c3_ego_lifting_always_false :
    ∀ ps : List PoseData, (analyze_generic_pose ps).is_ego_lifting = false := by
  intro ps
  rcases ps with _ | _ <;> simp [analyze_generic_pose]

/-- Claim C4, counterexample: the claimed weighted formula
`0.4·conf + 0.35·rom + 0.25·vel` forces the form-score difference between
two kinematically identical sequences (equal ROM and velocity sub-scores)
to be `0.4 ×` their confidence difference; the code's scores differ by the
full confidence difference instead (3/5 versus 6/25). -/
theorem c4_counterexample :
    (analyze_generic_pose c4SeqHigh).form_score - (analyze_generic_pose c4SeqLow).form_score ≠
      (2/5) * (avg_confidence c4SeqHigh - avg_confidence c4SeqLow) := by
  norm_num [c4SeqHigh, c4SeqLow, confFrame, analyze_generic_pose, avg_confidence,
    List.replicate_succ]

/-- Claim C4 (amended): `form_score` equals the plain average pose
confidence across the sequence — no ROM or velocity-consistency term is
applied — and it lies in [0,1] whenever every frame confidence does. -/
theorem c4_form_score_is_avg_confidence (ps : List PoseData) (hne : ps ≠ [])
    (hc : ∀ p ∈ ps, 0 ≤ p.confidence ∧ p.confidence ≤ 1) :
    (analyze_generic_pose ps).form_score = avg_confidence ps ∧
    0 ≤ (analyze_generic_pose ps).form_score ∧
    (analyze_generic_pose ps).form_score ≤ 1 := by
  have hemp : ps.isEmpty = false := by
    rcases ps with _ | _
    · exact absurd rfl hne
    · rfl
  have hfs : (analyze_generic_pose ps).form_score = avg_confidence ps := by
    simp [analyze_generic_pose, hemp]
  have hlenpos : (0 : ℚ) < (ps.length : ℚ) := by
    have := List.length_pos.mpr hne
    exact_mod_cast this
  have hsum0 : 0 ≤ (ps.map PoseData.confidence).sum := by
    apply List.sum_nonneg
    intro x hx
    rcases List.mem_map.mp hx with ⟨p, hp, rfl⟩
    exact (hc p hp).1
  have hsum1 : (ps.map PoseData.confidence).sum ≤ ((ps.map PoseData.confidence).length : ℚ) := by
    apply list_sum_le_length
    intro x hx
    rcases List.mem_map.mp hx with ⟨p, hp, rfl⟩
    exact (hc p hp).2
  refine ⟨hfs, ?_, ?_⟩ <;> rw [hfs]
  · exact div_nonneg hsum0 (le_of_lt hlenpos)
  · rw [avg_confidence, div_le_one hlenpos]
    simpa using hsum1

/-- Claim C4 witness: the amended statement at a concrete two-frame
sequence. -/
theorem c4_witness :
    (analyze_generic_pose demoSeq).form_score = avg_confidence demoSeq ∧
    0 ≤ (analyze_generic_pose demoSeq).form_score ∧
    (analyze_generic_pose demoSeq).form_score ≤ 1 :=
  c4_form_score_is_avg_confidence demoSeq (by simp [demoSeq])
    (by norm_num [demoSeq, confFrame, List.forall_mem_cons])

/-- Claim C7: over [0,1] the label thresholds are exactly as claimed
(excellent iff > 0.8, good iff 0.6 < s ≤ 0.8, fair iff 0.4 < s ≤ 0.6, poor
otherwise), the numeric chain never produces "dangerous", and the
analysis's quality field is this label of its form score. -/
theorem c7_quality_thresholds :
    (∀ s : ℚ, 0 ≤ s → s ≤ 1 →
      ((rep_quality_label s = "excellent" ↔ 4/5 < s) ∧
       (rep_quality_label s = "good" ↔ (3/5 < s ∧ s ≤ 4/5)) ∧
       (rep_quality_label s = "fair" ↔ (2/5 < s ∧ s ≤ 3/5)) ∧
       (rep_quality_label s = "poor" ↔ s ≤ 2/5) ∧
       rep_quality_label s ≠ "dangerous")) ∧
    ∀ ps : List PoseData, ps ≠ [] →
      (analyze_generic_pose ps).rep_quality =
        rep_quality_label ((analyze_generic_pose ps).form_score) := by
  constructor
  · intro s _ _
    unfold rep_quality_label
    split_ifs with h1 h2 h3 <;>
      refine ⟨?_, ?_, ?_, ?_, ?_⟩ <;> simp_all <;>
        first
        | linarith
        | (intro h; linarith)
  · intro ps hne
    rcases ps with _ | ⟨a, t⟩
    · exact absurd rfl hne
    · simp [analyze_generic_pose]

/-- Claim C7 witness: the thresholds instantiated at score 0.7 and the
label-of-score identity at a concrete sequence. -/
theorem c7_witness :
    (rep_quality_label (7/10) = "good" ↔ (3/5 < (7/10 : ℚ) ∧ (7/10 : ℚ) ≤ 4/5)) ∧
    (analyze_generic_pose demoSeq).rep_quality =
      rep_quality_label ((analyze_generic_pose demoSeq).form_score) :=
  ⟨(c7_quality_thresholds.1 (7/10) (by norm_num) (by norm_num)).2.1,
   c7_quality_thresholds.2 demoSeq (by simp [demoSeq])⟩

/-- Claim C8: the analysis is a pure function of the frame confidences:
any two sequences with equal per-frame confidence lists (in particular,
the same sequence re-scored against the same frozen history) receive
identical results, hence identical `form_score` and `rep_quality`. -/
theorem c8_rescoring_idempotent (s1 s2 : List PoseData)
    (h : s1.map PoseData.confidence = s2.map PoseData.confidence) :
    analyze_generic_pose s1 = analyze_generic_pose s2 := by
  have hlen : s1.length = s2.length := by
    simpa using congrArg List.length h
  have havg : avg_confidence s1 = avg_confidence s2 := by
    rw [avg_confidence_factor, avg_confidence_factor, h]
  rcases s1 with _ | ⟨a, t⟩ <;> rcases s2 with _ | ⟨b, u⟩
  · rfl
  · simp at h
  · simp at h
  · simp [analyze_generic_pose, havg, hlen]

/-- Claim C8 witness: two single-frame sequences with different landmark
payloads but the same confidence receive the same analysis. -/
theorem c8_witness :
    analyze_generic_pose [{ landmarks := [], angles := [], confidence := 3/4,
                            bounding_box := (0, 0, 0, 0), pose_type := "squat" }] =
    analyze_generic_pose [{ landmarks := [(0, ((1 : ℝ), 2, 3))], angles := [],
                            confidence := 3/4,
                            bounding_box := (0, 0, 0, 0), pose_type := "standing" }] :=
  c8_rescoring_idempotent _ _ rfl

/-! ## List helpers

Python's `sorted` is a stable sort and `dict` preserves insertion order.
They are embedded as a structurally recursive stable insertion sort and a
first-occurrence deduplication, chosen structural so that concrete inputs
reduce inside the kernel. -/

/-- Insert `a` into a sorted list, before the first element `b` with
`le a b`; with a total preorder this is the stable insertion step. -/
def insertSorted {α : Type} (le : α → α → Bool) (a : α) : List α → List α
  | [] => [a]
  | b :: t => if le a b then a :: b :: t else b :: insertSorted le a t

/-- Stable insertion sort, embedding Python's `sorted(..., key=...)`. -/
def sortBy {α : Type} (le : α → α → Bool) : List α → List α
  | [] => []
  | a :: t => insertSorted le a (sortBy le t)

/-- First-occurrence deduplication worker carrying the keys seen so far. -/
def dedupFirstAux {α : Type} [DecidableEq α] (seen : List α) : List α → List α
  | [] => []
  | a :: t => if a ∈ seen then dedupFirstAux seen t else a :: dedupFirstAux (a :: seen) t

/-- Keys of a Python dict built by repeated insertion: every value once, in
first-occurrence order. -/
def dedupFirst {α : Type} [DecidableEq α] (l : List α) : List α := dedupFirstAux [] l

/-! ## Data model: rep_analyzer.py and auto_regulation.py

The `RepLog` model module itself (`app/models/rep_log.py`) is not among
the provided sources; its fields are taken from their uses in
rep_analyzer.py, rep_tracking.py and auto_regulation.py.  `created_at` is
an abstract monotone timestamp. -/

structure RepLog where
  exercise_name : String
  set_number : ℕ
  rep_number : ℕ
  weight_kg : Option ℚ
  duration_seconds : Option ℚ
  form_score : Option ℚ
  is_ego_lifting : Bool
  is_locked : Bool
  created_at : ℕ
  session_id : String
deriving DecidableEq

/-- Embedding of the `WorkoutInsights` dataclass (rep_analyzer.py, lines
16-27). `strength_progress` is the exercise → progress dict as an ordered
association list. -/
structure WorkoutInsights where
  total_reps : ℕ
  total_sets : ℕ
  total_duration : ℚ
  average_form_score : ℚ
  form_trend : String
  ego_lifting_percentage : ℚ
  most_common_exercise : String
  strength_progress : List (String × ℚ)
  recommendations : List String
deriving DecidableEq

/-- Python's `round(x, 1)` on the rational value.  (Python rounds halves
to even on the binary float; this embedding rounds exact halves up, which
differs only on exact multiples of 1/20.) -/
def round1 (q : ℚ) : ℚ := (round (q * 10) : ℤ) / 10

/-- Embedding of `RepAnalyzer._analyze_form_trend` (rep_analyzer.py, lines
199-228): fewer than 5 reps → "insufficient_data"; otherwise sort by
`created_at`, split in half at `len // 2`, average the non-None form
scores of each half, and classify with the ±0.1 thresholds. -/
def analyze_form_trend (reps : List RepLog) : String :=
  if reps.length < 5 then "insufficient_data"
  else
    let sorted := sortBy (fun a b => a.created_at ≤ b.created_at) reps
    let mid := sorted.length / 2
    let early_scores := (sorted.take mid).filterMap RepLog.form_score
    let late_scores := (sorted.drop mid).filterMap RepLog.form_score
    if early_scores = [] ∨ late_scores = [] then "insufficient_data"
    else
      let early_avg := early_scores.sum / (early_scores.length : ℚ)
      let late_avg := late_scores.sum / (late_scores.length : ℚ)
      if late_avg > early_avg + 1/10 then "improving"
      else if late_avg < early_avg - 1/10 then "declining"
      else "stable"

/-- The exercise names in dict-insertion order (first occurrence). -/
def exercise_names (reps : List RepLog) : List String :=
  dedupFirst (reps.map RepLog.exercise_name)

/-- Number of reps recorded for one exercise. -/
def count_exercise (reps : List RepLog) (ex : String) : ℕ :=
  (reps.filter (fun r => r.exercise_name = ex)).length

/-- `max(exercise_counts.items(), key=...)[0]` (rep_analyzer.py, line 80):
the first exercise, in insertion order, attaining the maximal count; the
`"none"` default is unreachable for nonempty input. -/
def most_common_exercise (reps : List RepLog) : String :=
  match exercise_names reps with
  | [] => "none"
  | e :: es =>
    es.foldl (fun best ex =>
      if count_exercise reps best < count_exercise reps ex then ex else best) e

/-- Embedding of the per-exercise branch of `_analyze_strength_progress`
(rep_analyzer.py, lines 242-252): with at least two recorded weights, the
percentage increase from the smallest to the largest weight (the source
sorts the weights themselves), rounded to one decimal; `none` when fewer
than 2 weights or the smallest is not positive.  The `headD`/`getLastD`
defaults are unreachable under the length guard. -/
def strength_progress_for (reps : List RepLog) (ex : String) : Option ℚ :=
  let weights := (reps.filter (fun r => r.exercise_name = ex)).filterMap RepLog.weight_kg
  if 2 ≤ weights.length then
    let sortedW := sortBy (fun a b => a ≤ b) weights
    let first := sortedW.headD 0
    let last := sortedW.getLastD 0
    if 0 < first then some (round1 ((last - first) / first * 100)) else none
  else none

/-- Embedding of `_analyze_strength_progress` (rep_analyzer.py, lines
230-254): the dict of qualifying exercises in insertion order. -/
def analyze_strength_progress (reps : List RepLog) : List (String × ℚ) :=
  (exercise_names reps).filterMap
    (fun ex => (strength_progress_for reps ex).map (fun p => (ex, p)))

/-- Embedding of `_generate_workout_recommendations` (rep_analyzer.py,
lines 360-378). -/
def generate_workout_recommendations (form_score ego_pct : ℚ) (trend : String) :
    List String :=
  (if form_score < 3/5 then ["Focus on improving form before increasing weight"] else []) ++
  (if ego_pct > 1/5 then ["Reduce ego-lifting - prioritize form over weight"] else []) ++
  (if trend = "declining" then ["Form is declining - consider reducing intensity"]
   else if trend = "improving" then ["Great form improvement! Consider progressive overload"]
   else []) ++
  (if form_score > 4/5 ∧ ego_pct < 1/10 then ["Excellent form! Ready to increase weight safely"]
   else [])

/-- Embedding of `RepAnalyzer.analyze_workout_session` (rep_analyzer.py,
lines 48-103): the empty-input early return and the metric computations of
the nonempty branch. -/
def analyze_workout_session (reps : List RepLog) : WorkoutInsights :=
  if reps.isEmpty then
    { total_reps := 0
      total_sets := 0
      total_duration := 0
      average_form_score := 0
      form_trend := "no_data"
      ego_lifting_percentage := 0
      most_common_exercise := "none"
      strength_progress := []
      recommendations := ["Start tracking your workouts to get insights"] }
  else
    let total_reps := reps.length
    let form_scores := reps.filterMap RepLog.form_score
    let average_form_score :=
      if form_scores = [] then 0 else form_scores.sum / (form_scores.length : ℚ)
    let ego_pct := ((reps.filter (·.is_ego_lifting)).length : ℚ) / (total_reps : ℚ)
    let trend := analyze_form_trend reps
    { total_reps := total_reps
      total_sets := (dedupFirst (reps.map RepLog.set_number)).length
      total_duration := (reps.map (fun r => r.duration_seconds.getD 0)).sum
      average_form_score := average_form_score
      form_trend := trend
      ego_lifting_percentage := ego_pct
      most_common_exercise := most_common_exercise reps
      strength_progress := analyze_strength_progress reps
      recommendations := generate_workout_recommendations average_form_score ego_pct trend }

/-- Claim C10: on the empty rep list the session analysis is total and
returns the defined insight record with the documented defaults. -/
theorem c10_empty_session_insights :
    (analyze_workout_session []).total_reps = 0 ∧
    (analyze_workout_session []).total_sets = 0 ∧
    (analyze_workout_session []).total_duration = 0 ∧
    (analyze_workout_session []).average_form_score = 0 ∧
    (analyze_workout_session []).form_trend = "no_data" ∧
    (analyze_workout_session []).ego_lifting_percentage = 0 ∧
    (analyze_workout_session []).most_common_exercise = "none" :=
  ⟨rfl, rfl, rfl, rfl, rfl, rfl, rfl⟩

/-! ## auto_regulation.py: ego-lifting status (risk aggregation) -/

/-- The fields of the risk-assessment response relevant to the claims. -/
structure EgoLiftingStatus where
  ego_lifting_risk : String
  risk_score : ℚ
  locked_reps_count : ℕ
  is_plan_locked : Bool
deriving DecidableEq

/-- Embedding of `get_ego_lifting_status` (auto_regulation.py, lines
23-91) on the user's trailing-30-day rep window.  With no recent reps the
route returns the low-risk default.  Otherwise lines 51-55 compute the
totals and the ego-lifting percentage, and then line 56,
`locked_percentage = len(locked_reps) / total_reps if total_reeps > 0 else 0`,
evaluates the undefined name `total_reeps` (a typo for `total_reps`),
raising `NameError`; the route's exception handler converts it into an
HTTP 500 error response, modelled as `Except.error`. -/
def get_ego_lifting_status (recent_reps : List RepLog) : Except String EgoLiftingStatus :=
  if recent_reps.isEmpty then
    .ok { ego_lifting_risk := "low", risk_score := 0,
          locked_reps_count := 0, is_plan_locked := false }
  else
    let total_reps := recent_reps.length
    let ego_lifting_reps := recent_reps.filter (·.is_ego_lifting)
    let _locked_reps := recent_reps.filter (·.is_locked)
    let _ego_lifting_percentage : ℚ :=
      if 0 < total_reps then (ego_lifting_reps.length : ℚ) / (total_reps : ℚ) else 0
    .error "HTTP 500: Failed to get ego-lifting status"

/-- Modelled from the spec: the risk score of §4.5,
`0.6 × (ego-lifting fraction) + 0.4 × (locked fraction)` over the window —
the computation `get_ego_lifting_status` evidently intends (its line 59)
but never reaches because of the `total_reeps` typo. -/
def risk_score_spec (recent_reps : List RepLog) : ℚ :=
  ((recent_reps.filter (·.is_ego_lifting)).length : ℚ) / (recent_reps.length : ℚ) * (3/5) +
    ((recent_reps.filter (·.is_locked)).length : ℚ) / (recent_reps.length : ℚ) * (2/5)

/-- Modelled from the spec: risk tier (strict thresholds 0.3 and 0.15) and
plan lock, per §4.5 and auto_regulation.py lines 62-70. -/
def risk_assessment_spec (recent_reps : List RepLog) : ℚ × String × Bool :=
  if risk_score_spec recent_reps > 3/10 then (risk_score_spec recent_reps, "high", true)
  else if risk_score_spec recent_reps > 3/20 then (risk_score_spec recent_reps, "medium", false)
  else (risk_score_spec recent_reps, "low", false)

/-- A rep-window entry with the given flags. -/
def mkRep (ego locked : Bool) : RepLog :=
  { exercise_name := "squat", set_number := 1, rep_number := 1, weight_kg := none,
    duration_seconds := none, form_score := none, is_ego_lifting := ego,
    is_locked := locked, created_at := 0, session_id := "s" }

/-- The spec's end-to-end scenario: 30 reps in the window, 10 flagged
ego-lifting and 5 flagged locked, no overlap. -/
def c1Window : List RepLog :=
  List.replicate 10 (mkRep true false) ++ List.replicate 5 (mkRep false true) ++
    List.replicate 15 (mkRep false false)

/-- Claim C1: on the spec's 30-rep scenario the implemented endpoint
crashes (HTTP 500 via the `total_reeps` NameError) instead of answering,
while the spec-intended computation yields risk score 4/15 ≈ 0.2667, tier
"medium", plan not locked — exactly what the claim expects. -/
theorem c1_status_crashes_where_spec_says_medium :
    get_ego_lifting_status c1Window = .error "HTTP 500: Failed to get ego-lifting status" ∧
    risk_assessment_spec c1Window = (4/15, "medium", false) := by
  constructor
  · rfl
  · have hs : risk_score_spec c1Window = 4/15 := by
      unfold risk_score_spec
      rw [show (c1Window.filter (fun r => r.is_ego_lifting)).length = 10 from rfl,
        show (c1Window.filter (fun r => r.is_locked)).length = 5 from rfl,
        show c1Window.length = 30 from rfl]
      norm_num
    unfold risk_assessment_spec
    rw [hs]
    norm_num

/-! ## auto_regulation.py: form-trend route

`get_form_trends` (auto_regulation.py, lines 236-308) reads the user's
reps for the period ordered by `created_at`, groups them by calendar day,
and classifies the overall trend.  A rep is abstracted as its calendar-day
key (a natural number, order-isomorphic to the ISO date string the source
sorts by) together with its optional form score. -/

structure DayScore where
  day : ℕ
  form_score : Option ℚ
deriving DecidableEq

/-- Python's truthiness test `if rep.form_score:` on line 268: `None` and
`0.0` are falsy, every other float truthy. -/
def truthyScore : Option ℚ → Option ℚ
  | none => none
  | some s => if s = 0 then none else some s

/-- Python's `round(x, 3)` on the rational value (halves rounded up
rather than to even; see `round1`). -/
def round3 (q : ℚ) : ℚ := (round (q * 1000) : ℤ) / 1000

/-- The day keys of the grouping dict, sorted — `sorted(daily_scores.items())`
on line 273.  Every rep creates its day's key (line 266-267), so days with
only falsy scores still appear. -/
def daysSorted (reps : List DayScore) : List ℕ :=
  sortBy (fun a b => a ≤ b) (dedupFirst (reps.map DayScore.day))

/-- The truthy form scores collected for one day (lines 264-269). -/
def dayScores (reps : List DayScore) (d : ℕ) : List ℚ :=
  (reps.filter (fun r => r.day = d)).filterMap (fun r => truthyScore r.form_score)

/-- One `trend_data` entry (lines 272-279): the day's average score — 0 for
a day with no truthy scores — rounded to three decimals. -/
def dayAverage (reps : List DayScore) (d : ℕ) : ℚ :=
  let scores := dayScores reps d
  round3 (if scores = [] then 0 else scores.sum / (scores.length : ℚ))

/-- The `average_form_score` column of `trend_data`, day-sorted. -/
def trendData (reps : List DayScore) : List ℚ :=
  (daysSorted reps).map (dayAverage reps)

/-- `first_week_avg` (line 283): mean of the earliest ≤ 7 per-day
averages; the divisor `min(7, len(trend_data))` equals the slice length. -/
def firstWeekAvg (reps : List DayScore) : ℚ :=
  ((trendData reps).take 7).sum / ((min 7 (trendData reps).length : ℕ) : ℚ)

/-- `last_week_avg` (line 284): mean of the most recent ≤ 7 per-day
averages (`trend_data[-7:]`). -/
def lastWeekAvg (reps : List DayScore) : ℚ :=
  ((trendData reps).drop ((trendData reps).length - 7)).sum /
    ((min 7 (trendData reps).length : ℕ) : ℚ)

/-- Embedding of the trend classification of `get_form_trends` (lines
255-293): "no_data" for an empty rep list, "insufficient_data" with fewer
than two per-day entries, otherwise the ±0.1 comparison of the two window
means. -/
def formTrend (reps : List DayScore) : String :=
  if reps.isEmpty then "no_data"
  else if 2 ≤ (trendData reps).length then
    if lastWeekAvg reps > firstWeekAvg reps + 1/10 then "improving"
    else if lastWeekAvg reps < firstWeekAvg reps - 1/10 then "declining"
    else "stable"
  else "insufficient_data"

/-- Claim C9, counterexample: with zero per-day data points (empty
history, fewer than 2 data points) the route reports "no_data", not the
"insufficient_data" the claim requires. -/
theorem c9_counterexample :
    formTrend [] = "no_data" ∧ formTrend [] ≠ "insufficient_data" :=
  ⟨rfl, by decide⟩

/-- Claim C9 (amended): the classification returns "no_data" on an empty
history, "insufficient_data" when reps exist on fewer than 2 distinct
days, and otherwise compares the means of the earliest ≤ 7 and most
recent ≤ 7 per-day averages (each day's mean rounded to 3 decimals):
"improving" iff the recent mean exceeds the early mean by more than 0.1,
"declining" iff it is more than 0.1 below it, "stable" otherwise. -/
theorem c9_form_trend_classification :
    formTrend [] = "no_data" ∧
    ∀ reps : List DayScore, reps ≠ [] →
      (((trendData reps).length < 2 → formTrend reps = "insufficient_data") ∧
       (2 ≤ (trendData reps).length →
         ((formTrend reps = "improving" ↔
             lastWeekAvg reps > firstWeekAvg reps + 1/10) ∧
          (formTrend reps = "declining" ↔
             lastWeekAvg reps < firstWeekAvg reps - 1/10) ∧
          (formTrend reps = "stable" ↔
             (lastWeekAvg reps ≤ firstWeekAvg reps + 1/10 ∧
              firstWeekAvg reps - 1/10 ≤ lastWeekAvg reps))))) := by
  refine ⟨rfl, ?_⟩
  intro reps hne
  have hemp : reps.isEmpty = false := by
    cases reps
    · exact absurd rfl hne
    · rfl
  have hout : ¬ (reps.isEmpty = true) := by simp [hemp]
  constructor
  · intro hlt
    have h2 : ¬ 2 ≤ (trendData reps).length := by omega
    unfold formTrend
    rw [if_neg hout, if_neg h2]
  · intro hge
    by_cases himp : lastWeekAvg reps > firstWeekAvg reps + 1/10
    · have heq : formTrend reps = "improving" := by
        unfold formTrend
        rw [if_neg hout, if_pos hge, if_pos himp]
      refine ⟨⟨fun _ => himp, fun _ => heq⟩, ?_, ?_⟩
      · constructor
        · intro h
          rw [heq] at h
          exact absurd h (by decide)
        · intro h
          exfalso
          linarith
      · constructor
        · intro h
          rw [heq] at h
          exact absurd h (by decide)
        · rintro ⟨h1, _⟩
          exfalso
          linarith
    · by_cases hdec : lastWeekAvg reps < firstWeekAvg reps - 1/10
      · have heq : formTrend reps = "declining" := by
          unfold formTrend
          rw [if_neg hout, if_pos hge, if_neg himp, if_pos hdec]
        refine ⟨?_, ⟨fun _ => hdec, fun _ => heq⟩, ?_⟩
        · constructor
          · intro h
            rw [heq] at h
            exact absurd h (by decide)
          · intro h
            exfalso
            linarith
        · constructor
          · intro h
            rw [heq] at h
            exact absurd h (by decide)
          · rintro ⟨_, h2⟩
            exfalso
            linarith
      · have heq : formTrend reps = "stable" := by
          unfold formTrend
          rw [if_neg hout, if_pos hge, if_neg himp, if_neg hdec]
        refine ⟨?_, ?_, ⟨fun _ => ⟨by linarith, by linarith⟩, fun _ => heq⟩⟩
        · constructor
          · intro h
            rw [heq] at h
            exact absurd h (by decide)
          · intro h
            exact absurd h himp
        · constructor
          · intro h
            rw [heq] at h
            exact absurd h (by decide)
          · intro h
            exact absurd h hdec

/-- Two days of history, one truthy score each; with at most 7 days of
data the earliest and the most recent window are the same slice. -/
def c9Demo : List DayScore :=
  [⟨0, some (1/2)⟩, ⟨1, some (3/5)⟩]

/-- For at most 7 days of data the two window means coincide. -/
theorem c9Demo_windows_equal : lastWeekAvg c9Demo = firstWeekAvg c9Demo := by
  have hlen : (trendData c9Demo).length = 2 := rfl
  have htake : List.take 7 (trendData c9Demo) = trendData c9Demo :=
    List.take_of_length_le (by rw [hlen]; omega)
  unfold lastWeekAvg firstWeekAvg
  rw [hlen, htake]
  norm_num

/-- Claim C9 witness: the amended classification applied to the two-day
history `c9Demo`, whose two window means coincide, classifying it
"stable". -/
theorem c9_witness : formTrend c9Demo = "stable" := by
  have h := ((c9_form_trend_classification.2 c9Demo (by simp [c9Demo])).2
    (by decide)).2.2
  refine h.mpr ?_
  rw [c9Demo_windows_equal]
  constructor <;> linarith

/-! ## Geometry kernel: pose_estimation.py lines 181-243

`_calculate_angle` drops the z coordinate (lines 228-230 build 2-D numpy
vectors), divides the dot product by the product of norms, clips to
[-1, 1] and takes `arccos` in degrees.  When both coincident-projection
degenerate, the division yields numpy `nan` (0/0 — no exception is
raised, so the `return 0.0` handler is not reached); the `nan` outcome is
modelled as `none`. -/

/-- The 2-D vector `a - b` of the landmarks' (x, y) projections. -/
noncomputable def vsub2 (p q : ℝ × ℝ × ℝ) : ℝ × ℝ := (p.1 - q.1, p.2.1 - q.2.1)

/-- `np.dot` on the 2-D vectors. -/
noncomputable def dot2 (u v : ℝ × ℝ) : ℝ := u.1 * v.1 + u.2 * v.2

/-- `np.linalg.norm` on a 2-D vector. -/
noncomputable def norm2 (u : ℝ × ℝ) : ℝ := Real.sqrt (u.1 ^ 2 + u.2 ^ 2)

/-- `np.clip(x, -1.0, 1.0)`. -/
noncomputable def clip (x : ℝ) : ℝ := min (max x (-1)) 1

open Classical in
/-- Embedding of `_calculate_angle` (pose_estimation.py, lines 222-243). -/
noncomputable def calculate_angle (p1 p2 p3 : ℝ × ℝ × ℝ) : Option ℝ :=
  if norm2 (vsub2 p1 p2) * norm2 (vsub2 p3 p2) = 0 then none
  else
    some (Real.arccos
        (clip (dot2 (vsub2 p1 p2) (vsub2 p3 p2) /
          (norm2 (vsub2 p1 p2) * norm2 (vsub2 p3 p2)))) * (180 / Real.pi))

/-- The dot product of the two difference vectors is symmetric. -/
theorem dot2_comm (u v : ℝ × ℝ) : dot2 u v = dot2 v u := by
  unfold dot2
  ring

/-- A nonzero 2-D vector has positive norm. -/
theorem norm2_pos (u : ℝ × ℝ) (h : u ≠ (0, 0)) : 0 < norm2 u := by
  have hor : u.1 ≠ 0 ∨ u.2 ≠ 0 := by
    by_contra hc
    push_neg at hc
    exact h (Prod.ext hc.1 hc.2)
  have hsum : 0 < u.1 ^ 2 + u.2 ^ 2 := by
    rcases hor with hx | hy
    · have h1 : 0 < u.1 ^ 2 := pow_two_pos_of_ne_zero hx
      have h2 : 0 ≤ u.2 ^ 2 := sq_nonneg _
      linarith
    · have h1 : 0 < u.2 ^ 2 := pow_two_pos_of_ne_zero hy
      have h2 : 0 ≤ u.1 ^ 2 := sq_nonneg _
      linarith
  unfold norm2
  exact Real.sqrt_pos.mpr hsum

/-- If two points have equal (x, y) projections, the difference vector is
zero. -/
theorem vsub2_ne_zero {p q : ℝ × ℝ × ℝ} (h : (p.1, p.2.1) ≠ (q.1, q.2.1)) :
    vsub2 p q ≠ (0, 0) := by
  intro hz
  apply h
  have hx : p.1 - q.1 = 0 := congrArg Prod.fst hz
  have hy : p.2.1 - q.2.1 = 0 := congrArg Prod.snd hz
  have h1 : p.1 = q.1 := by linarith
  have h2 : p.2.1 = q.2.1 := by linarith
  rw [h1, h2]

/-- Claim C5, counterexample: the points (0,0,0) and (0,0,1) are distinct
but share their (x, y) projection — the source uses only x and y — so the
angle at (0,0,1) degenerates to numpy `nan` (modelled `none`): no value in
[0°, 180°] is returned even though all three points are pairwise distinct. -/
theorem c5_counterexample :
    calculate_angle (0, 0, 0) (0, 0, 1) (1, 0, 0) = none ∧
    ((0, 0, 0) : ℝ × ℝ × ℝ) ≠ (0, 0, 1) ∧ ((1, 0, 0) : ℝ × ℝ × ℝ) ≠ (0, 0, 1) := by
  refine ⟨?_, by norm_num [Prod.ext_iff], by norm_num [Prod.ext_iff]⟩
  have h0 : vsub2 ((0 : ℝ), (0 : ℝ), (0 : ℝ)) ((0 : ℝ), (0 : ℝ), (1 : ℝ)) = (0, 0) := by
    simp [vsub2]
  have hz : norm2 (vsub2 ((0 : ℝ), (0 : ℝ), (0 : ℝ)) ((0 : ℝ), (0 : ℝ), (1 : ℝ))) *
      norm2 (vsub2 ((1 : ℝ), (0 : ℝ), (0 : ℝ)) ((0 : ℝ), (0 : ℝ), (1 : ℝ))) = 0 := by
    rw [h0]
    simp [norm2]
  unfold calculate_angle
  rw [if_pos hz]

/-- Claim C5 (amended): whenever the (x, y) projections of the outer
points differ from the vertex's — the z coordinate being ignored by the
source — the angle is defined, lies in [0°, 180°], and is symmetric in
the outer arguments (the symmetry holding for all inputs). -/
theorem c5_angle_range_and_symmetry (p1 p2 p3 : ℝ × ℝ × ℝ)
    (h1 : (p1.1, p1.2.1) ≠ (p2.1, p2.2.1)) (h3 : (p3.1, p3.2.1) ≠ (p2.1, p2.2.1)) :
    (calculate_angle p1 p2 p3).isSome = true ∧
    0 ≤ (calculate_angle p1 p2 p3).getD 0 ∧
    (calculate_angle p1 p2 p3).getD 0 ≤ 180 ∧
    calculate_angle p1 p2 p3 = calculate_angle p3 p2 p1 := by
  have hn1 := norm2_pos _ (vsub2_ne_zero h1)
  have hn3 := norm2_pos _ (vsub2_ne_zero h3)
  have hcond : ¬ norm2 (vsub2 p1 p2) * norm2 (vsub2 p3 p2) = 0 := (mul_pos hn1 hn3).ne'
  have hsymm : calculate_angle p1 p2 p3 = calculate_angle p3 p2 p1 := by
    unfold calculate_angle
    rw [dot2_comm, mul_comm (norm2 (vsub2 p1 p2))]
  have heval : calculate_angle p1 p2 p3 =
      some (Real.arccos
        (clip (dot2 (vsub2 p1 p2) (vsub2 p3 p2) /
          (norm2 (vsub2 p1 p2) * norm2 (vsub2 p3 p2)))) * (180 / Real.pi)) := by
    unfold calculate_angle
    rw [if_neg hcond]
  refine ⟨?_, ?_, ?_, hsymm⟩ <;> rw [heval]
  · rfl
  · simp only [Option.getD_some]
    exact mul_nonneg (Real.arccos_nonneg _) (by positivity)
  · simp only [Option.getD_some]
    have harc := Real.arccos_le_pi
      (clip (dot2 (vsub2 p1 p2) (vsub2 p3 p2) /
        (norm2 (vsub2 p1 p2) * norm2 (vsub2 p3 p2))))
    have hstep : Real.arccos
        (clip (dot2 (vsub2 p1 p2) (vsub2 p3 p2) /
          (norm2 (vsub2 p1 p2) * norm2 (vsub2 p3 p2)))) * (180 / Real.pi) ≤
        Real.pi * (180 / Real.pi) :=
      mul_le_mul_of_nonneg_right harc (by positivity)
    have hpi : Real.pi * (180 / Real.pi) = 180 := by
      field_simp
    linarith

/-- Claim C5 witness: the amended statement at a right angle: outer points
(1,0,0) and (0,1,0), vertex the origin. -/
theorem c5_witness :
    (calculate_angle (1, 0, 0) (0, 0, 0) (0, 1, 0)).isSome = true ∧
    0 ≤ (calculate_angle (1, 0, 0) (0, 0, 0) (0, 1, 0)).getD 0 ∧
    (calculate_angle (1, 0, 0) (0, 0, 0) (0, 1, 0)).getD 0 ≤ 180 ∧
    calculate_angle (1, 0, 0) (0, 0, 0) (0, 1, 0) =
      calculate_angle (0, 1, 0) (0, 0, 0) (1, 0, 0) :=
  c5_angle_range_and_symmetry (1, 0, 0) (0, 0, 0) (0, 1, 0)
    (by norm_num [Prod.ext_iff]) (by norm_num [Prod.ext_iff])

/-! ## `_calculate_joint_angles` (pose_estimation.py, lines 181-220) -/

def LEFT_SHOULDER : ℕ := 11
def LEFT_ELBOW : ℕ := 13
def LEFT_HIP : ℕ := 23
def RIGHT_HIP : ℕ := 24
def LEFT_KNEE : ℕ := 25
def RIGHT_KNEE : ℕ := 26
def LEFT_ANKLE : ℕ := 27
def RIGHT_ANKLE : ℕ := 28

/-- Embedding of `_calculate_joint_angles`: each of the four implemented
angles is emitted exactly when its three landmark ids are present in the
landmark map (`all(k in landmarks ...)`); no confidence is consulted —
landmarks carry only coordinates.  The numpy operations raise no
exception on float inputs, so the `except` path (which would skip the
remaining angles) is unreachable. -/
noncomputable def calculate_joint_angles (lm : List (ℕ × (ℝ × ℝ × ℝ))) :
    List (String × Option ℝ) :=
  (match lm.lookup LEFT_HIP, lm.lookup LEFT_KNEE, lm.lookup LEFT_ANKLE with
   | some a, some b, some c => [("left_knee", calculate_angle a b c)]
   | _, _, _ => []) ++
  (match lm.lookup RIGHT_HIP, lm.lookup RIGHT_KNEE, lm.lookup RIGHT_ANKLE with
   | some a, some b, some c => [("right_knee", calculate_angle a b c)]
   | _, _, _ => []) ++
  (match lm.lookup LEFT_SHOULDER, lm.lookup LEFT_HIP, lm.lookup LEFT_KNEE with
   | some a, some b, some c => [("left_hip", calculate_angle a b c)]
   | _, _, _ => []) ++
  (match lm.lookup LEFT_ELBOW, lm.lookup LEFT_SHOULDER, lm.lookup LEFT_HIP with
   | some a, some b, some c => [("left_shoulder", calculate_angle a b c)]
   | _, _, _ => [])

/-- Modelled from the spec (§4.1): the joint-angle derivation the claim
describes, over landmarks carrying a per-landmark confidence — an angle is
produced only when all three landmarks are present **with confidence above
the configurable floor** (default 0.5).  No such confidence exists in the
source's landmark map, so this spec-side definition is used to exhibit the
divergence. -/
noncomputable def spec_joint_angles (conf_floor : ℚ)
    (lm : List (ℕ × ((ℝ × ℝ × ℝ) × ℚ))) : List (String × Option ℝ) :=
  (match lm.lookup LEFT_HIP, lm.lookup LEFT_KNEE, lm.lookup LEFT_ANKLE with
   | some a, some b, some c =>
     if conf_floor < a.2 ∧ conf_floor < b.2 ∧ conf_floor < c.2 then
       [("left_knee", calculate_angle a.1 b.1 c.1)]
     else []
   | _, _, _ => []) ++
  (match lm.lookup RIGHT_HIP, lm.lookup RIGHT_KNEE, lm.lookup RIGHT_ANKLE with
   | some a, some b, some c =>
     if conf_floor < a.2 ∧ conf_floor < b.2 ∧ conf_floor < c.2 then
       [("right_knee", calculate_angle a.1 b.1 c.1)]
     else []
   | _, _, _ => []) ++
  (match lm.lookup LEFT_SHOULDER, lm.lookup LEFT_HIP, lm.lookup LEFT_KNEE with
   | some a, some b, some c =>
     if conf_floor < a.2 ∧ conf_floor < b.2 ∧ conf_floor < c.2 then
       [("left_hip", calculate_angle a.1 b.1 c.1)]
     else []
   | _, _, _ => []) ++
  (match lm.lookup LEFT_ELBOW, lm.lookup LEFT_SHOULDER, lm.lookup LEFT_HIP with
   | some a, some b, some c =>
     if conf_floor < a.2 ∧ conf_floor < b.2 ∧ conf_floor < c.2 then
       [("left_shoulder", calculate_angle a.1 b.1 c.1)]
     else []
   | _, _, _ => [])

/-- Forget the spec-side confidences, leaving the source's landmark map. -/
def dropConf (lm : List (ℕ × ((ℝ × ℝ × ℝ) × ℚ))) : List (ℕ × (ℝ × ℝ × ℝ)) :=
  lm.map (fun e => (e.1, e.2.1))

/-- A frame whose left-hip landmark has confidence 0.1, below the claimed
0.5 floor; knee and ankle have confidence 1. -/
def c6Lmc : List (ℕ × ((ℝ × ℝ × ℝ) × ℚ)) :=
  [(LEFT_HIP, (((0 : ℝ), 0, 0), 1/10)),
   (LEFT_KNEE, (((0 : ℝ), 1, 0), 1)),
   (LEFT_ANKLE, (((1 : ℝ), 1, 0), 1))]

/-- Claim C6, counterexample: on a frame whose left-hip landmark
confidence is 0.1, the source still emits the left-knee angle — it never
consults any confidence — while the claimed floor-respecting derivation
omits it. -/
theorem c6_counterexample :
    ((calculate_joint_angles (dropConf c6Lmc)).lookup "left_knee").isSome = true ∧
    (spec_joint_angles (1/2) c6Lmc).lookup "left_knee" = none := by
  constructor
  · rfl
  · simp only [spec_joint_angles, c6Lmc, LEFT_SHOULDER, LEFT_ELBOW, LEFT_HIP,
      RIGHT_HIP, LEFT_KNEE, RIGHT_KNEE, LEFT_ANKLE, RIGHT_ANKLE, List.lookup]
    simp
    intro a b h1
    exact absurd h1 (by norm_num)

set_option maxHeartbeats 4000000 in
/-- Claim C6 (amended): an angle is in the derived joint-angle set exactly
when its three required landmark ids are present in the landmark map, for
each of the four implemented angles; no confidence floor is applied, no
error is propagated, and a degenerate entry appears with an undefined
(`none`, modelling NaN) value — witnessed by a frame whose left hip and
left knee share their (x, y) projection. -/
theorem c6_angles_iff_landmarks_present :
    (∀ lm : List (ℕ × (ℝ × ℝ × ℝ)),
      ((((calculate_joint_angles lm).lookup "left_knee").isSome) ↔
        ((lm.lookup LEFT_HIP).isSome ∧ (lm.lookup LEFT_KNEE).isSome ∧
         (lm.lookup LEFT_ANKLE).isSome)) ∧
      ((((calculate_joint_angles lm).lookup "right_knee").isSome) ↔
        ((lm.lookup RIGHT_HIP).isSome ∧ (lm.lookup RIGHT_KNEE).isSome ∧
         (lm.lookup RIGHT_ANKLE).isSome)) ∧
      ((((calculate_joint_angles lm).lookup "left_hip").isSome) ↔
        ((lm.lookup LEFT_SHOULDER).isSome ∧ (lm.lookup LEFT_HIP).isSome ∧
         (lm.lookup LEFT_KNEE).isSome)) ∧
      ((((calculate_joint_angles lm).lookup "left_shoulder").isSome) ↔
        ((lm.lookup LEFT_ELBOW).isSome ∧ (lm.lookup LEFT_SHOULDER).isSome ∧
         (lm.lookup LEFT_HIP).isSome))) ∧
    (calculate_joint_angles
        [(LEFT_HIP, ((2 : ℝ), 3, 0)), (LEFT_KNEE, ((2 : ℝ), 3, 5)),
         (LEFT_ANKLE, ((4 : ℝ), 7, 0))]).lookup "left_knee" = some none := by
  constructor
  · intro lm
    rcases hLS : lm.lookup LEFT_SHOULDER with _ | a11 <;>
    rcases hLE : lm.lookup LEFT_ELBOW with _ | a13 <;>
    rcases hLH : lm.lookup LEFT_HIP with _ | a23 <;>
    rcases hRH : lm.lookup RIGHT_HIP with _ | a24 <;>
    rcases hLK : lm.lookup LEFT_KNEE with _ | a25 <;>
    rcases hRK : lm.lookup RIGHT_KNEE with _ | a26 <;>
    rcases hLA : lm.lookup LEFT_ANKLE with _ | a27 <;>
    rcases hRA : lm.lookup RIGHT_ANKLE with _ | a28 <;>
      simp [calculate_joint_angles, hLS, hLE, hLH, hRH, hLK, hRK, hLA, hRA]
  · have hdeg : calculate_angle ((2 : ℝ), 3, 0) ((2 : ℝ), 3, 5) ((4 : ℝ), 7, 0) = none := by
      have h0 : vsub2 ((2 : ℝ), (3 : ℝ), (0 : ℝ)) ((2 : ℝ), (3 : ℝ), (5 : ℝ)) = (0, 0) := by
        simp [vsub2]
      have hz : norm2 (vsub2 ((2 : ℝ), (3 : ℝ), (0 : ℝ)) ((2 : ℝ), (3 : ℝ), (5 : ℝ))) *
          norm2 (vsub2 ((4 : ℝ), (7 : ℝ), (0 : ℝ)) ((2 : ℝ), (3 : ℝ), (5 : ℝ))) = 0 := by
        rw [h0]
        simp [norm2]
      unfold calculate_angle
      rw [if_pos hz]
    simp [calculate_joint_angles, LEFT_SHOULDER, LEFT_ELBOW, LEFT_HIP, RIGHT_HIP,
      LEFT_KNEE, RIGHT_KNEE, LEFT_ANKLE, RIGHT_ANKLE, List.lookup, hdeg]

end Fitron
